import Mathlib

/-!
Shallow embedding of `src/Project Heaven/src/rend3_impl.rs`: a rend3/egui/winit
application consisting of a `Rendering` state (`data : Option RenderingData`,
two UI toggles) with a `setup` function populating the session and a
`handle_event` function processing platform events.  Renderer-side state
(meshes, materials, objects, lights, camera) is modelled explicitly; the
observable behaviour of one `handle_event` call is captured as a list of
`Action`s (the calls it makes into the renderer / UI collaborators, in order).
Colors are exact rationals: the code only stores and copies them, never
computes with them.
-/

namespace Rend3Impl

/-- An RGBA color, `[f32; 4]` in the source.  The program only ever stores,
copies and compares colors, so exact rationals model the payload faithfully. -/
structure Rgba where
  r : Rat
  g : Rat
  b : Rat
  a : Rat
deriving DecidableEq, Repr

/-- `rend3_routine::material::AlbedoComponent` (the variants this program can
produce or that the default produces). -/
inductive AlbedoComponent where
  | none
  | vertex
  | value (c : Rgba)
  | texture (h : Nat)
deriving DecidableEq, Repr

/-- `rend3_routine::material::PbrMaterial`: the albedo plus the non-albedo
parameters (all left at their defaults by this program). -/
structure PbrMaterial where
  albedo : AlbedoComponent
  ao_factor : Option Rat
  metallic_factor : Option Rat
  roughness_factor : Option Rat
  reflectance : Option Rat
  clearcoat : Option Rat
  clearcoat_roughness : Option Rat
  emissive : Option Rgba
  anisotropy : Option Rat
  unlit : Bool
deriving DecidableEq, Repr

/-- `PbrMaterial::default()`. -/
def PbrMaterial.default : PbrMaterial :=
  { albedo := .none
    ao_factor := none
    metallic_factor := none
    roughness_factor := none
    reflectance := none
    clearcoat := none
    clearcoat_roughness := none
    emissive := none
    anisotropy := none
    unlit := false }

/-- `PbrMaterial { albedo: AlbedoComponent::Value(c), ..PbrMaterial::default() }`,
the only material shape this program ever submits (setup line 62 and the
update at line 176). -/
def pbrWithAlbedo (c : Rgba) : PbrMaterial :=
  { PbrMaterial.default with albedo := .value c }

/-- All material parameters other than the albedo, bundled for comparison. -/
def PbrMaterial.nonAlbedo (m : PbrMaterial) :
    Option Rat × Option Rat × Option Rat × Option Rat × Option Rat ×
    Option Rat × Option Rgba × Option Rat × Bool :=
  (m.ao_factor, m.metallic_factor, m.roughness_factor, m.reflectance,
   m.clearcoat, m.clearcoat_roughness, m.emissive, m.anisotropy, m.unlit)

/-- Raw vertex/index data, consumed opaquely (spec section 6). -/
structure MeshData where
  positions : List (Rat × Rat × Rat)
  normals : List (Rat × Rat × Rat)
  indices : List Nat
deriving DecidableEq, Repr

/-- Modelled from the spec: `createMesh() -> MeshData{positions, normals,
indices}` lives in the `mesh_generator` module, which is not under `src/`;
the spec says its output is consumed opaquely, so its contents are
irrelevant here and an empty payload stands in. -/
def create_mesh : MeshData := ⟨[], [], []⟩

/-- The only transform the program constructs is `glam::Mat4::IDENTITY`
(line 74); the floating-point matrix type is abstracted to that one value. -/
inductive Mat4 where
  | identity
deriving DecidableEq, Repr

/-- `rend3::types::Object`: mesh handle + material handle + transform. -/
structure Object where
  mesh : Nat
  material : Nat
  transform : Mat4
deriving DecidableEq, Repr

/-- `rend3::types::DirectionalLight` with the fields set at lines 102-108. -/
structure DirectionalLight where
  color : Rat × Rat × Rat
  intensity : Rat
  direction : Rat × Rat × Rat
  distance : Rat
deriving DecidableEq, Repr

/-- The camera data set once at setup (lines 91-97).  The view matrix is
floating-point arithmetic on constants and is abstracted to a tag. -/
structure Camera where
  vfov : Rat
  near : Rat
deriving DecidableEq, Repr

/-- Renderer-owned storage: handles are sequentially allocated `Nat`s into
association lists.  This models the `rend3::Renderer` service state that the
program's calls read and write. -/
structure Renderer where
  nextHandle : Nat
  meshes : List (Nat × MeshData)
  materials : List (Nat × PbrMaterial)
  objects : List (Nat × Object)
  lights : List (Nat × DirectionalLight)
  camera : Option Camera
deriving DecidableEq, Repr

/-- A renderer with no resources registered yet. -/
def Renderer.empty : Renderer := ⟨0, [], [], [], [], none⟩

/-- `renderer.add_mesh(mesh)`: allocate a fresh handle for the mesh data. -/
def Renderer.add_mesh (r : Renderer) (m : MeshData) : Nat × Renderer :=
  (r.nextHandle,
   { r with nextHandle := r.nextHandle + 1, meshes := r.meshes ++ [(r.nextHandle, m)] })

/-- `renderer.add_material(material)`: allocate a fresh handle for the material. -/
def Renderer.add_material (r : Renderer) (m : PbrMaterial) : Nat × Renderer :=
  (r.nextHandle,
   { r with nextHandle := r.nextHandle + 1, materials := r.materials ++ [(r.nextHandle, m)] })

/-- `renderer.add_object(object)`: allocate a fresh handle for the object. -/
def Renderer.add_object (r : Renderer) (o : Object) : Nat × Renderer :=
  (r.nextHandle,
   { r with nextHandle := r.nextHandle + 1, objects := r.objects ++ [(r.nextHandle, o)] })

/-- `renderer.add_directional_light(light)`. -/
def Renderer.add_directional_light (r : Renderer) (l : DirectionalLight) : Nat × Renderer :=
  (r.nextHandle,
   { r with nextHandle := r.nextHandle + 1, lights := r.lights ++ [(r.nextHandle, l)] })

/-- `renderer.set_camera_data(camera)`. -/
def Renderer.set_camera_data (r : Renderer) (c : Camera) : Renderer :=
  { r with camera := some c }

/-- `renderer.update_material(&handle, material)`: replace the definition
stored under an existing handle; no handle is allocated or freed. -/
def Renderer.update_material (r : Renderer) (h : Nat) (m : PbrMaterial) : Renderer :=
  { r with materials := r.materials.map (fun p => if p.1 = h then (h, m) else p) }

/-- Look up the material currently stored under a handle. -/
def Renderer.material (r : Renderer) (h : Nat) : Option PbrMaterial :=
  (r.materials.find? (fun p => p.1 == h)).map Prod.snd

/-- `rend3_egui::EguiRenderRoutine` surface-sized state (created at lines
44-51, retargeted by `resize` at lines 237-238). -/
structure EguiRoutine where
  width : Nat
  height : Nat
  scale_factor : Rat
deriving DecidableEq, Repr

/-- `EguiRenderRoutine::resize(width, height, scale_factor)`. -/
def EguiRoutine.resize (_e : EguiRoutine) (w h : Nat) (s : Rat) : EguiRoutine :=
  ⟨w, h, s⟩

/-- The `RenderingData` struct (lines 8-17): session state populated once by
`setup`.  The egui platform's internal input state and the start instant are
part of the opaque UI/platform collaborators; their observable calls appear
in the action trace instead. -/
structure RenderingData where
  object_handle : Nat
  material_handle : Nat
  directional_handle : Nat
  egui_routine : EguiRoutine
  color : Rgba
deriving DecidableEq, Repr

/-- The `Rendering` struct (lines 21-26). -/
structure Rendering where
  data : Option RenderingData
  menu_toggle : Bool
  gltf_cube_toggle : Bool
deriving DecidableEq, Repr

/-- `Rendering::default()` from `#[derive(Default)]`: no session data, both
toggles false. -/
def Rendering.mkDefault : Rendering := ⟨none, false, false⟩

/-- The window attributes `handle_event`/`setup` read: inner size and scale
factor. -/
structure Window where
  width : Nat
  height : Nat
  scale_factor : Rat
deriving DecidableEq, Repr

/-- `winit::event::WindowEvent`, restricted to the variants the program
matches on (everything else falls into `other`). -/
inductive WindowEvent where
  | resized (w h : Nat)
  | closeRequested
  | other
deriving DecidableEq, Repr

/-- `rend3_framework::Event`: the platform events delivered to
`handle_event`. -/
inductive Event where
  | redrawRequested
  | mainEventsCleared
  | windowEvent (e : WindowEvent)
  | other
deriving DecidableEq, Repr

/-- `winit::event_loop::ControlFlow` values the program requests. -/
inductive ControlFlow where
  | poll
  | exit
deriving DecidableEq, Repr

/-- The two routine objects locked during graph building (lines 207-208). -/
inductive Routine where
  | pbr
  | tonemapping
deriving DecidableEq, Repr

/-- The widgets the egui closure declares, in declaration order, for one
frame (lines 158-187). -/
inductive Widget where
  | taskbar
  | menuButton
  | colorWindow
  | gltfCubeButton
  | label (s : String)
  | colorEditButton (c : Rgba)
deriving DecidableEq, Repr

/-- The per-frame render graph passes the program adds, in order. -/
inductive Pass where
  | pbrForward (skybox : Option Nat)
  | tonemap
  | egui (clipped_meshes : List Widget)
deriving DecidableEq, Repr

/-- The output frame handed to `graph.execute` (line 199: always a surface). -/
inductive OutputFrame where
  | surface (s : Nat)
deriving DecidableEq, Repr

/-- The observable calls one `handle_event` invocation makes into its
collaborators, in program order. -/
inductive Action where
  | platformHandleEvent (e : Event)
  | updateTime
  | beginFrame
  | updateMaterial (h : Nat) (m : PbrMaterial)
  | endFrame
  | tessellate
  | getFrame (s : Nat)
  | ready
  | lockAcquire (r : Routine)
  | lockRelease (r : Routine)
  | graphExecute (g : List Pass) (f : OutputFrame)
  | controlFlow (cf : ControlFlow)
  | requestRedraw
  | resizeRoutine (w h : Nat)
deriving DecidableEq, Repr

/-- The UI toolkit is opaque; what the user did to this frame's widgets is an
input: whether the "Menu" button reports a click, whether the "GLTF/Cube"
button reports a click, and whether the color edit control reports a change
(carrying the new value it wrote into `data.color`).  Widget reports are
only consumed when the widget is declared this frame. -/
structure FrameInput where
  menuClicked : Bool
  gltfClicked : Bool
  colorEdit : Option Rgba
deriving DecidableEq, Repr

/-- The two `unwrap` sites in `handle_event`: the session data at line 144
and the surface argument at line 200. -/
inductive Panic where
  | dataUnwrap
  | surfaceUnwrap
deriving DecidableEq, Repr

/-- Result of one successful `handle_event` call: updated `Rendering` state,
updated renderer state, the action trace, and the argument passed to the
`control_flow` callback (if it was called). -/
structure StepResult where
  state : Rendering
  renderer : Renderer
  trace : List Action
  cf : Option ControlFlow
deriving DecidableEq, Repr

/-- Result of the egui build closure for one frame (lines 158-187): the two
toggles after click handling, the color after the edit control ran, the
`update_material` calls issued from inside the closure (handle and new
definition, in order), and the declared widget tree. -/
structure UIBuild where
  menu_toggle : Bool
  gltf_cube_toggle : Bool
  color : Rgba
  updates : List (Nat × PbrMaterial)
  tree : List Widget
deriving DecidableEq, Repr

/-- The value of `self.menu_toggle` after the "Menu" button's click handler
(line 159-161) ran: a reported click inverts the flag. -/
def menuAfterClick (menu : Bool) (input : FrameInput) : Bool :=
  if input.menuClicked then !menu else menu

/-- The value of `self.gltf_cube_toggle` after the "GLTF/Cube" button's click
handler (lines 167-169) ran: a reported click inverts the flag. -/
def gltfAfterClick (gltf : Bool) (input : FrameInput) : Bool :=
  if input.gltfClicked then !gltf else gltf

/-- The `TopBottomPanel::top("Taskbar").show` closure (lines 158-187): the
"Menu" button toggles `menu_toggle`; iff the toggled value is true, the
"Change color" window is declared, containing the "GLTF/Cube" button (which
toggles `gltf_cube_toggle`), a label, and the color edit control bound to
`data.color` — when that control reports a change, `renderer.update_material`
is called once with the same material handle and a PBR material whose albedo
is the new color and whose other fields are defaults. -/
def build_taskbar (menu gltf : Bool) (color : Rgba) (material_handle : Nat)
    (input : FrameInput) : UIBuild :=
  let menu' := menuAfterClick menu input
  if menu' then
    let gltf' := gltfAfterClick gltf input
    let edited := match input.colorEdit with
      | some c => (c, [(material_handle, pbrWithAlbedo c)])
      | none => (color, [])
    { menu_toggle := menu'
      gltf_cube_toggle := gltf'
      color := edited.1
      updates := edited.2
      tree := [.taskbar, .menuButton, .colorWindow, .gltfCubeButton,
               .label "Change the color of the cube", .colorEditButton edited.1] }
  else
    { menu_toggle := menu'
      gltf_cube_toggle := gltf
      color := color
      updates := []
      tree := [.taskbar, .menuButton] }

/-- The egui context's tessellation of the frame's draw commands into
paintable primitives.  It belongs to the opaque UI toolkit; the model keeps
exactly the information the program threads through it: which frame's draw
list the primitives come from. -/
def tessellateTree (tree : List Widget) : List Widget := tree

/-- `Rendering::setup` (lines 34-133): create the egui routine sized to the
window, upload the generated mesh, add the PBR material with albedo
`[0, 0.5, 0.5, 1]` and otherwise-default fields, combine mesh and material
into one object at the identity transform, set the camera, add one
directional light, and populate `self.data`. -/
def setup (st : Rendering) (renderer : Renderer) (window : Window) :
    Rendering × Renderer :=
  let egui_routine : EguiRoutine := ⟨window.width, window.height, window.scale_factor⟩
  let mesh := create_mesh
  let (mesh_handle, renderer) := renderer.add_mesh mesh
  let material := pbrWithAlbedo ⟨0, 1/2, 1/2, 1⟩
  let (material_handle, renderer) := renderer.add_material material
  let object : Object := ⟨mesh_handle, material_handle, .identity⟩
  let (object_handle, renderer) := renderer.add_object object
  let renderer := renderer.set_camera_data ⟨60, 1/10⟩
  let (directional_handle, renderer) := renderer.add_directional_light
    ⟨(1, 1, 1), 10, (-1, -4, 2), 400⟩
  let color : Rgba := ⟨0, 1/2, 1/2, 1⟩
  ({ st with data := some ⟨object_handle, material_handle, directional_handle,
       egui_routine, color⟩ }, renderer)

/-- `Rendering::handle_event` (lines 135-247).  `self.data` is unwrapped
first (line 144); the event is forwarded to `data.platform.handle_event`
(line 147); then the `match` dispatches.  `RedrawRequested`: update time,
begin the egui frame, run the taskbar closure (issuing any material update),
end the frame and tessellate, unwrap the surface into an output frame, ready
the renderer, lock the pbr and tonemapping routines, build the graph (default
rendergraph with no skybox, then the egui routine on top), execute it, and
request `ControlFlow::Poll`; the two lock guards drop at the end of the match
arm, in reverse acquisition order.  `MainEventsCleared`: request a redraw.
`Resized`: resize the egui routine at the window's scale factor.
`CloseRequested`: request `ControlFlow::Exit`.  Anything else: nothing. -/
def handle_event (st : Rendering) (renderer : Renderer) (window : Window)
    (surface : Option Nat) (event : Event) (input : FrameInput) :
    Except Panic StepResult :=
  match st.data with
  | none => .error .dataUnwrap
  | some data =>
    match event with
    | .redrawRequested =>
      let b := build_taskbar st.menu_toggle st.gltf_cube_toggle data.color
        data.material_handle input
      let renderer := b.updates.foldl
        (fun r (p : Nat × PbrMaterial) => r.update_material p.1 p.2) renderer
      let clipped_meshes := tessellateTree b.tree
      match surface with
      | none => .error .surfaceUnwrap
      | some s =>
        let graph : List Pass := [.pbrForward none, .tonemap, .egui clipped_meshes]
        .ok
          { state := { st with
              menu_toggle := b.menu_toggle
              gltf_cube_toggle := b.gltf_cube_toggle
              data := some { data with color := b.color } }
            renderer := renderer
            trace := [.platformHandleEvent event, .updateTime, .beginFrame]
              ++ b.updates.map (fun p => Action.updateMaterial p.1 p.2)
              ++ [.endFrame, .tessellate, .getFrame s, .ready,
                  .lockAcquire .pbr, .lockAcquire .tonemapping,
                  .graphExecute graph (.surface s),
                  .controlFlow .poll,
                  .lockRelease .tonemapping, .lockRelease .pbr]
            cf := some .poll }
    | .mainEventsCleared =>
      .ok { state := st, renderer := renderer
            trace := [.platformHandleEvent event, .requestRedraw], cf := none }
    | .windowEvent we =>
      match we with
      | .resized w h =>
        .ok { state := { st with data := some { data with
                egui_routine := data.egui_routine.resize w h window.scale_factor } }
              renderer := renderer
              trace := [.platformHandleEvent event, .resizeRoutine w h], cf := none }
      | .closeRequested =>
        .ok { state := st, renderer := renderer
              trace := [.platformHandleEvent event, .controlFlow .exit]
              cf := some .exit }
      | .other =>
        .ok { state := st, renderer := renderer
              trace := [.platformHandleEvent event], cf := none }
    | .other =>
      .ok { state := st, renderer := renderer
            trace := [.platformHandleEvent event], cf := none }

/-- Modelled from the spec: the event-loop driver (`rend3_framework` /
winit, not part of this repository) has states Running/Terminated; requesting
`ControlFlow::Exit` transitions it to the terminal `Terminated` state, after
which no further event is delivered to `handle_event` (spec section 4.3:
"CloseRequested → transition to Terminated; no further redraw is issued"). -/
inductive LoopState where
  | running
  | terminated
deriving DecidableEq, Repr

/-- The whole application as the loop sees it: app state, renderer state and
loop state. -/
structure App where
  rendering : Rendering
  renderer : Renderer
  loop : LoopState
deriving DecidableEq, Repr

/-- Modelled from the spec: one loop iteration.  A terminated loop delivers
nothing (empty trace, unchanged state); otherwise the event goes to
`handle_event`, and a requested `ControlFlow::Exit` terminates the loop.  A
panic aborts the process: no observable actions and no further state. -/
def stepLoop (a : App) (surface : Option Nat) (event : Event)
    (input : FrameInput) : App × List Action :=
  match a.loop with
  | .terminated => (a, [])
  | .running =>
    match handle_event a.rendering a.renderer ⟨640, 480, 1⟩ surface event input with
    | .error _ => (a, [])
    | .ok res =>
      ({ rendering := res.state, renderer := res.renderer
         loop := if res.cf = some .exit then .terminated else .running },
       res.trace)

/-- Modelled from the spec: run the loop over a sequence of delivered events
(each with the surface supplied for it and the frame's UI input),
concatenating the observable traces. -/
def runLoop (a : App) : List (Option Nat × Event × FrameInput) → App × List Action
  | [] => (a, [])
  | (s, e, i) :: rest =>
    let (a1, tr) := stepLoop a s e i
    let (a2, trs) := runLoop a1 rest
    (a2, tr ++ trs)

/-! Helper predicates on actions and results, and concrete states used by the
witnesses. -/

/-- Is this action a `renderer.update_material` call? -/
def Action.isUpdateMaterial : Action → Bool
  | .updateMaterial _ _ => true
  | _ => false

/-- Is this action a `graph.execute` call? -/
def Action.isGraphExecute : Action → Bool
  | .graphExecute _ _ => true
  | _ => false

/-- Is this action a routine-lock acquisition or release? -/
def Action.isLock : Action → Bool
  | .lockAcquire _ => true
  | .lockRelease _ => true
  | _ => false

/-- Is this action a routine-lock release? -/
def Action.isLockRelease : Action → Bool
  | .lockRelease _ => true
  | _ => false

/-- Is this action a lock acquisition, a lock release, or a `graph.execute`? -/
def Action.isLockOrExecute : Action → Bool
  | .lockAcquire _ => true
  | .lockRelease _ => true
  | .graphExecute _ _ => true
  | _ => false

/-- Is this action the forwarding of the raw event to the egui platform? -/
def Action.isPlatformHandleEvent : Action → Bool
  | .platformHandleEvent _ => true
  | _ => false

/-- Did the call return normally (no panic)? -/
def isOk : Except Panic StepResult → Bool
  | .ok _ => true
  | .error _ => false

/-- Extract the result of a non-panicking call (junk on panic). -/
def getOk : Except Panic StepResult → StepResult
  | .ok r => r
  | .error _ => ⟨Rendering.mkDefault, Renderer.empty, [], none⟩

/-- The spec's claim-3 reading of a frame trace: every routine-lock release
occurs strictly before the `graph.execute` call begins (no release at or
after the first execute action). -/
def locksReleasedBeforeExecute (tr : List Action) : Bool :=
  (tr.dropWhile (fun a => !a.isGraphExecute)).filter Action.isLockRelease = []

/-- A fixed window for concrete runs. -/
def theWindow : Window := ⟨640, 480, 1⟩

/-- The session right after `setup` ran on a default `Rendering` and an empty
renderer. -/
def initSession : Rendering × Renderer :=
  setup Rendering.mkDefault Renderer.empty theWindow

/-- The application as the loop sees it right after `setup`. -/
def initialApp : App := ⟨initSession.1, initSession.2, .running⟩

/-- A frame input reporting no widget interaction at all. -/
def idleInput : FrameInput := ⟨false, false, none⟩

/-- A frame input reporting only a "GLTF/Cube" button click. -/
def gltfClickInput : FrameInput := ⟨false, true, none⟩

/-- A frame input reporting a "Menu" click together with an edit of the color
control to opaque red. -/
def redInput : FrameInput := ⟨true, false, some ⟨1, 0, 0, 1⟩⟩

/-- The session data produced by `setup` on an empty renderer: object handle
2, material handle 1, light handle 3, the window-sized egui routine, and the
initial color. -/
def dW : RenderingData := ⟨2, 1, 3, ⟨640, 480, 1⟩, ⟨0, 1/2, 1/2, 1⟩⟩

/-- A concrete populated `Rendering` state used by the witnesses. -/
def stW : Rendering := ⟨some dW, false, false⟩

/-- The renderer state right after `setup` on an empty renderer. -/
def rW : Renderer := initSession.2

/-! Characterization lemmas for `handle_event`, used by the claim proofs. -/

/-- The trace of one `RedrawRequested` frame whose egui build produced `b`,
targeting surface `s`: the actions of lines 147-230 in program order,
followed by the two lock-guard drops at the end of the match arm. -/
def redrawTrace (b : UIBuild) (s : Nat) : List Action :=
  [.platformHandleEvent .redrawRequested, .updateTime, .beginFrame]
    ++ b.updates.map (fun p => Action.updateMaterial p.1 p.2)
    ++ [.endFrame, .tessellate, .getFrame s, .ready,
        .lockAcquire .pbr, .lockAcquire .tonemapping,
        .graphExecute [.pbrForward none, .tonemap, .egui (tessellateTree b.tree)]
          (.surface s),
        .controlFlow .poll,
        .lockRelease .tonemapping, .lockRelease .pbr]

/-- The full result of one `RedrawRequested` frame on a populated session. -/
def redrawResult (d : RenderingData) (menu gltf : Bool) (r : Renderer)
    (s : Nat) (inp : FrameInput) : StepResult :=
  let b := build_taskbar menu gltf d.color d.material_handle inp
  { state := Rendering.mk (some { d with color := b.color }) b.menu_toggle b.gltf_cube_toggle
    renderer := b.updates.foldl (fun r p => r.update_material p.1 p.2) r
    trace := redrawTrace b s
    cf := some .poll }

/-- Unfolding of the `RedrawRequested` arm on a populated session. -/
theorem redraw_ok (d : RenderingData) (menu gltf : Bool) (r : Renderer)
    (w : Window) (s : Nat) (inp : FrameInput) :
    handle_event ⟨some d, menu, gltf⟩ r w (some s) .redrawRequested inp =
      .ok (redrawResult d menu gltf r s inp) := rfl

/-- Unfolding of the `RedrawRequested` arm when no surface was supplied. -/
theorem redraw_no_surface (d : RenderingData) (menu gltf : Bool) (r : Renderer)
    (w : Window) (inp : FrameInput) :
    handle_event ⟨some d, menu, gltf⟩ r w none .redrawRequested inp =
      .error .surfaceUnwrap := rfl

/-- Unfolding of the `MainEventsCleared` arm. -/
theorem main_events_cleared_ok (d : RenderingData) (menu gltf : Bool)
    (r : Renderer) (w : Window) (surf : Option Nat) (inp : FrameInput) :
    handle_event ⟨some d, menu, gltf⟩ r w surf .mainEventsCleared inp =
      .ok ⟨⟨some d, menu, gltf⟩, r,
           [.platformHandleEvent .mainEventsCleared, .requestRedraw], none⟩ := rfl

/-- Unfolding of the `Resized` arm. -/
theorem resized_ok (d : RenderingData) (menu gltf : Bool) (r : Renderer)
    (w : Window) (surf : Option Nat) (wd ht : Nat) (inp : FrameInput) :
    handle_event ⟨some d, menu, gltf⟩ r w surf (.windowEvent (.resized wd ht)) inp =
      .ok ⟨⟨some { d with egui_routine := d.egui_routine.resize wd ht w.scale_factor },
            menu, gltf⟩, r,
           [.platformHandleEvent (.windowEvent (.resized wd ht)), .resizeRoutine wd ht],
           none⟩ := rfl

/-- Unfolding of the `CloseRequested` arm. -/
theorem close_requested_ok (d : RenderingData) (menu gltf : Bool) (r : Renderer)
    (w : Window) (surf : Option Nat) (inp : FrameInput) :
    handle_event ⟨some d, menu, gltf⟩ r w surf (.windowEvent .closeRequested) inp =
      .ok ⟨⟨some d, menu, gltf⟩, r,
           [.platformHandleEvent (.windowEvent .closeRequested), .controlFlow .exit],
           some .exit⟩ := rfl

/-- Unfolding of the catch-all window-event arm. -/
theorem other_window_ok (d : RenderingData) (menu gltf : Bool) (r : Renderer)
    (w : Window) (surf : Option Nat) (inp : FrameInput) :
    handle_event ⟨some d, menu, gltf⟩ r w surf (.windowEvent .other) inp =
      .ok ⟨⟨some d, menu, gltf⟩, r,
           [.platformHandleEvent (.windowEvent .other)], none⟩ := rfl

/-- Unfolding of the catch-all arm. -/
theorem other_event_ok (d : RenderingData) (menu gltf : Bool) (r : Renderer)
    (w : Window) (surf : Option Nat) (inp : FrameInput) :
    handle_event ⟨some d, menu, gltf⟩ r w surf .other inp =
      .ok ⟨⟨some d, menu, gltf⟩, r, [.platformHandleEvent .other], none⟩ := rfl

/-- Unfolding of the `data.unwrap()` panic on an unpopulated session. -/
theorem data_unwrap_panics (menu gltf : Bool) (r : Renderer) (w : Window)
    (surf : Option Nat) (e : Event) (inp : FrameInput) :
    handle_event ⟨none, menu, gltf⟩ r w surf e inp = .error .dataUnwrap := rfl

/-! Characterization of the egui build closure's output. -/

/-- The menu toggle after the build is the post-click value. -/
theorem build_taskbar_menu (menu gltf : Bool) (c : Rgba) (mh : Nat)
    (inp : FrameInput) :
    (build_taskbar menu gltf c mh inp).menu_toggle = menuAfterClick menu inp := by
  by_cases h : menuAfterClick menu inp <;> cases hc : inp.colorEdit <;>
    simp [build_taskbar, h, hc]

/-- The gltf toggle is inverted only when the panel (and hence the button)
was declared this frame. -/
theorem build_taskbar_gltf (menu gltf : Bool) (c : Rgba) (mh : Nat)
    (inp : FrameInput) :
    (build_taskbar menu gltf c mh inp).gltf_cube_toggle =
      if menuAfterClick menu inp then gltfAfterClick gltf inp else gltf := by
  by_cases h : menuAfterClick menu inp <;> cases hc : inp.colorEdit <;>
    simp [build_taskbar, h, hc]

/-- The tracked color after the build: changed exactly when the panel was
declared and the edit control reported a change. -/
theorem build_taskbar_color (menu gltf : Bool) (c : Rgba) (mh : Nat)
    (inp : FrameInput) :
    (build_taskbar menu gltf c mh inp).color =
      if menuAfterClick menu inp then
        (match inp.colorEdit with | some c' => c' | none => c)
      else c := by
  by_cases h : menuAfterClick menu inp <;> cases hc : inp.colorEdit <;>
    simp [build_taskbar, h, hc]

/-- The `update_material` calls issued from inside the closure: one exactly
when the panel was declared and the edit control reported a change. -/
theorem build_taskbar_updates (menu gltf : Bool) (c : Rgba) (mh : Nat)
    (inp : FrameInput) :
    (build_taskbar menu gltf c mh inp).updates =
      if menuAfterClick menu inp then
        (match inp.colorEdit with
         | some c' => [(mh, pbrWithAlbedo c')]
         | none => [])
      else [] := by
  by_cases h : menuAfterClick menu inp <;> cases hc : inp.colorEdit <;>
    simp [build_taskbar, h, hc]

/-- The "Change color" window is declared exactly when the post-click menu
toggle is true. -/
theorem build_taskbar_window_mem (menu gltf : Bool) (c : Rgba) (mh : Nat)
    (inp : FrameInput) :
    Widget.colorWindow ∈ (build_taskbar menu gltf c mh inp).tree ↔
      menuAfterClick menu inp = true := by
  by_cases h : menuAfterClick menu inp <;> cases hc : inp.colorEdit <;>
    simp [build_taskbar, h, hc]

/-! Trace bookkeeping lemmas. -/

/-- Material-update actions never satisfy a predicate that is false on the
`updateMaterial` constructor. -/
theorem updates_map_filter_none (l : List (Nat × PbrMaterial)) (p : Action → Bool)
    (hp : ∀ h m, p (.updateMaterial h m) = false) :
    (l.map (fun q => Action.updateMaterial q.1 q.2)).filter p = [] := by
  induction l with
  | nil => rfl
  | cons a t ih => simp [List.filter_cons, hp a.1 a.2, ih]

/-- Filtering the mapped update actions for update actions keeps them all. -/
theorem updates_map_filter_all (l : List (Nat × PbrMaterial)) :
    (l.map (fun q => Action.updateMaterial q.1 q.2)).filter Action.isUpdateMaterial =
      l.map (fun q => Action.updateMaterial q.1 q.2) := by
  induction l with
  | nil => rfl
  | cons a t ih => simp [List.filter_cons, Action.isUpdateMaterial, ih]

/-- Mapped update actions are never the platform-forwarding action. -/
theorem updates_map_all_not_platform (l : List (Nat × PbrMaterial)) :
    (l.map (fun q => Action.updateMaterial q.1 q.2)).all
      (fun a => !a.isPlatformHandleEvent) = true := by
  rw [List.all_eq_true]
  intro a ha
  rw [List.mem_map] at ha
  obtain ⟨q, hq, rfl⟩ := ha
  rfl

/-- The update actions of a frame trace are exactly the build's updates. -/
theorem redrawTrace_filter_updates (b : UIBuild) (s : Nat) :
    (redrawTrace b s).filter Action.isUpdateMaterial =
      b.updates.map (fun q => Action.updateMaterial q.1 q.2) := by
  simp [redrawTrace, List.filter_append, updates_map_filter_all,
    Action.isUpdateMaterial, List.filter_cons]

/-- A frame trace contains exactly one `graph.execute`, with the fixed pass
order: pbr forward pass without skybox, tonemap, egui pass on this frame's
tessellated tree — targeting the frame's surface. -/
theorem redrawTrace_filter_execute (b : UIBuild) (s : Nat) :
    (redrawTrace b s).filter Action.isGraphExecute =
      [.graphExecute [.pbrForward none, .tonemap, .egui (tessellateTree b.tree)]
        (.surface s)] := by
  simp [redrawTrace, List.filter_append, Action.isGraphExecute, List.filter_cons,
    updates_map_filter_none]

/-- The lock and execute actions of a frame trace, in order: acquire pbr,
acquire tonemapping, execute the graph, release tonemapping, release pbr. -/
theorem redrawTrace_filter_lockExec (b : UIBuild) (s : Nat) :
    (redrawTrace b s).filter Action.isLockOrExecute =
      [.lockAcquire .pbr, .lockAcquire .tonemapping,
       .graphExecute [.pbrForward none, .tonemap, .egui (tessellateTree b.tree)]
         (.surface s),
       .lockRelease .tonemapping, .lockRelease .pbr] := by
  simp [redrawTrace, List.filter_append, Action.isLockOrExecute, List.filter_cons,
    updates_map_filter_none]

/-! The claims. -/

/-- Claim C1: for every frame build triggered by a `RedrawRequested` event,
exactly one `renderer.update_material` call occurs if and only if the
color-editing control reports a change during that frame (which requires the
panel to be declared, i.e. the post-click menu toggle to be true), and the
RGBA argument passed equals the color value after the change — the session's
tracked color at that point. -/
theorem C1_one_material_update_per_frame (st : Rendering) (d : RenderingData)
    (r : Renderer) (w : Window) (s : Nat) (inp : FrameInput) (c : Rgba)
    (res : StepResult) (hd : st.data = some d)
    (hres : handle_event st r w (some s) .redrawRequested inp = .ok res) :
    ((res.trace.filter Action.isUpdateMaterial).length = 1 ↔
      (menuAfterClick st.menu_toggle inp && inp.colorEdit.isSome) = true)
    ∧ (menuAfterClick st.menu_toggle inp = true → inp.colorEdit = some c →
        res.trace.filter Action.isUpdateMaterial =
          [.updateMaterial d.material_handle (pbrWithAlbedo c)]
        ∧ res.state.data = some { d with color := c }) := by
  obtain ⟨dataOpt, menu, gltf⟩ := st
  dsimp only at hd ⊢
  subst hd
  rw [redraw_ok] at hres
  injection hres with h
  subst h
  by_cases h : menuAfterClick menu inp <;> cases hc : inp.colorEdit <;>
    simp [redrawResult, redrawTrace_filter_updates, build_taskbar_updates,
      build_taskbar_color, h, hc]
  rintro rfl
  exact ⟨rfl, rfl⟩

/-- Claim C1 witness: opening the menu and reporting a red color edit on the
initial session produces exactly one material update, carrying red. -/
theorem C1_witness :
    (((getOk (handle_event stW rW theWindow (some 0) .redrawRequested
        redInput)).trace.filter Action.isUpdateMaterial).length = 1)
    ∧ ((getOk (handle_event stW rW theWindow (some 0) .redrawRequested
        redInput)).trace.filter Action.isUpdateMaterial =
          [.updateMaterial 1 (pbrWithAlbedo ⟨1, 0, 0, 1⟩)]) :=
  ⟨(C1_one_material_update_per_frame stW dW rW theWindow 0 redInput ⟨1, 0, 0, 1⟩
      (getOk (handle_event stW rW theWindow (some 0) .redrawRequested redInput))
      rfl rfl).1.mpr (by decide),
   ((C1_one_material_update_per_frame stW dW rW theWindow 0 redInput ⟨1, 0, 0, 1⟩
      (getOk (handle_event stW rW theWindow (some 0) .redrawRequested redInput))
      rfl rfl).2 (by decide) rfl).1⟩

/-- Claim C2: on every `RedrawRequested` event processed with a surface, the
trace contains exactly one `graph.execute`, whose graph has exactly the pass
order: pbr forward pass with no skybox, tonemap pass, egui pass consuming
this frame's tessellated primitives — and the execution targets the supplied
surface. -/
theorem C2_render_graph_order (st : Rendering) (d : RenderingData)
    (r : Renderer) (w : Window) (s : Nat) (inp : FrameInput) (res : StepResult)
    (hd : st.data = some d)
    (hres : handle_event st r w (some s) .redrawRequested inp = .ok res) :
    res.trace.filter Action.isGraphExecute =
      [.graphExecute
        [.pbrForward none, .tonemap,
         .egui (tessellateTree (build_taskbar st.menu_toggle st.gltf_cube_toggle
           d.color d.material_handle inp).tree)]
        (.surface s)] := by
  obtain ⟨dataOpt, menu, gltf⟩ := st
  dsimp only at hd ⊢
  subst hd
  rw [redraw_ok] at hres
  injection hres with h
  subst h
  exact redrawTrace_filter_execute _ s

/-- Claim C2 witness: a concrete idle frame executes exactly one graph, with
the pbr-without-skybox / tonemap / egui pass order, targeting the surface. -/
theorem C2_witness :
    (getOk (handle_event stW rW theWindow (some 0) .redrawRequested
        idleInput)).trace.filter Action.isGraphExecute =
      [.graphExecute
        [.pbrForward none, .tonemap,
         .egui (tessellateTree (build_taskbar stW.menu_toggle
           stW.gltf_cube_toggle dW.color dW.material_handle idleInput).tree)]
        (.surface 0)] :=
  C2_render_graph_order stW dW rW theWindow 0 idleInput
    (getOk (handle_event stW rW theWindow (some 0) .redrawRequested idleInput))
    rfl rfl

/-- Claim C4: every successfully processed platform event — of any kind — is
forwarded to the egui platform's input handling as the very first action of
its trace, and never again later: the UI sees the raw event before the
event-kind dispatch produces any other action. -/
theorem C4_ui_sees_event_first (st : Rendering) (d : RenderingData)
    (r : Renderer) (w : Window) (surf : Option Nat) (e : Event)
    (inp : FrameInput) (res : StepResult) (hd : st.data = some d)
    (hres : handle_event st r w surf e inp = .ok res) :
    res.trace.head? = some (.platformHandleEvent e)
    ∧ res.trace.tail.all (fun a => !a.isPlatformHandleEvent) = true := by
  obtain ⟨dataOpt, menu, gltf⟩ := st
  dsimp only at hd
  subst hd
  cases e with
  | redrawRequested =>
    cases surf with
    | none => rw [redraw_no_surface] at hres; simp at hres
    | some s =>
      rw [redraw_ok] at hres
      injection hres with h
      subst h
      refine ⟨rfl, ?_⟩
      simp [redrawResult, redrawTrace, List.all_cons, List.all_append,
        updates_map_all_not_platform, Action.isPlatformHandleEvent]
      rintro x x1 x2 _ rfl
      rfl
  | mainEventsCleared =>
    rw [main_events_cleared_ok] at hres
    injection hres with h
    subst h
    exact ⟨rfl, rfl⟩
  | windowEvent we =>
    cases we with
    | resized wd ht =>
      rw [resized_ok] at hres
      injection hres with h
      subst h
      exact ⟨rfl, rfl⟩
    | closeRequested =>
      rw [close_requested_ok] at hres
      injection hres with h
      subst h
      exact ⟨rfl, rfl⟩
    | other =>
      rw [other_window_ok] at hres
      injection hres with h
      subst h
      exact ⟨rfl, rfl⟩
  | other =>
    rw [other_event_ok] at hres
    injection hres with h
    subst h
    exact ⟨rfl, rfl⟩

/-- Claim C4 witness: on a concrete redraw frame, the first trace action is
the forwarding of the event to the egui platform, and no later action is. -/
theorem C4_witness :
    (getOk (handle_event stW rW theWindow (some 0) .redrawRequested
        idleInput)).trace.head? = some (.platformHandleEvent .redrawRequested)
    ∧ (getOk (handle_event stW rW theWindow (some 0) .redrawRequested
        idleInput)).trace.tail.all (fun a => !a.isPlatformHandleEvent) = true :=
  C4_ui_sees_event_first stW dW rW theWindow (some 0) .redrawRequested idleInput
    (getOk (handle_event stW rW theWindow (some 0) .redrawRequested idleInput))
    rfl rfl

/-- Claim C7: the state `setup` produces has `menu_toggle = false` and color
`[0, 0.5, 0.5, 1]`; a frame whose input reports a "Menu" click inverts the
menu toggle; and the "Change color" floating window is declared in the built
UI tree exactly when the resulting menu toggle is true. -/
theorem C7_menu_toggle_panel (st : Rendering) (d : RenderingData) (r : Renderer)
    (w : Window) (s : Nat) (inp : FrameInput) (res : StepResult)
    (r2 : Renderer) (w2 : Window) (hd : st.data = some d)
    (hres : handle_event st r w (some s) .redrawRequested inp = .ok res) :
    (setup Rendering.mkDefault r2 w2).1.menu_toggle = false
    ∧ (setup Rendering.mkDefault r2 w2).1.data.map RenderingData.color =
        some ⟨0, 1/2, 1/2, 1⟩
    ∧ (inp.menuClicked = true → res.state.menu_toggle = !st.menu_toggle)
    ∧ (Widget.colorWindow ∈ (build_taskbar st.menu_toggle st.gltf_cube_toggle
        d.color d.material_handle inp).tree ↔ res.state.menu_toggle = true) := by
  obtain ⟨dataOpt, menu, gltf⟩ := st
  dsimp only at hd ⊢
  subst hd
  rw [redraw_ok] at hres
  injection hres with h
  subst h
  refine ⟨rfl, rfl, ?_, ?_⟩
  · intro hclick
    simp [redrawResult, build_taskbar_menu, menuAfterClick, hclick]
  · simp [redrawResult, build_taskbar_menu, build_taskbar_window_mem]

/-- Claim C7 witness: from the setup state, a "Menu" click turns the menu
toggle on and the panel is declared in that frame's tree. -/
theorem C7_witness :
    (setup Rendering.mkDefault Renderer.empty theWindow).1.menu_toggle = false
    ∧ (setup Rendering.mkDefault Renderer.empty theWindow).1.data.map
        RenderingData.color = some ⟨0, 1/2, 1/2, 1⟩
    ∧ (getOk (handle_event stW rW theWindow (some 0) .redrawRequested
        redInput)).state.menu_toggle = !false
    ∧ (Widget.colorWindow ∈ (build_taskbar stW.menu_toggle stW.gltf_cube_toggle
        dW.color dW.material_handle redInput).tree ↔
       (getOk (handle_event stW rW theWindow (some 0) .redrawRequested
        redInput)).state.menu_toggle = true) :=
  ⟨(C7_menu_toggle_panel stW dW rW theWindow 0 redInput
      (getOk (handle_event stW rW theWindow (some 0) .redrawRequested redInput))
      Renderer.empty theWindow rfl rfl).1,
   (C7_menu_toggle_panel stW dW rW theWindow 0 redInput
      (getOk (handle_event stW rW theWindow (some 0) .redrawRequested redInput))
      Renderer.empty theWindow rfl rfl).2.1,
   (C7_menu_toggle_panel stW dW rW theWindow 0 redInput
      (getOk (handle_event stW rW theWindow (some 0) .redrawRequested redInput))
      Renderer.empty theWindow rfl rfl).2.2.1 rfl,
   (C7_menu_toggle_panel stW dW rW theWindow 0 redInput
      (getOk (handle_event stW rW theWindow (some 0) .redrawRequested redInput))
      Renderer.empty theWindow rfl rfl).2.2.2⟩

/-- Claim C9: an event delivered before `setup` populated the session hits
the `data.unwrap()` failure; once the session data is populated — which
`setup` unconditionally does — that unwrap can never fail, for any event,
and every successful call keeps the session data populated. -/
theorem C9_session_unwrap_safety (st : Rendering) (r : Renderer) (w : Window)
    (surf : Option Nat) (e : Event) (inp : FrameInput) (res : StepResult)
    (st2 : Rendering) (r2 : Renderer) (w2 : Window) :
    (st.data = none → handle_event st r w surf e inp = .error .dataUnwrap)
    ∧ (st.data.isSome = true →
        handle_event st r w surf e inp ≠ .error .dataUnwrap)
    ∧ (setup st2 r2 w2).1.data.isSome = true
    ∧ (handle_event st r w surf e inp = .ok res →
        res.state.data.isSome = true) := by
  obtain ⟨dataOpt, menu, gltf⟩ := st
  refine ⟨?_, ?_, rfl, ?_⟩
  · intro h
    dsimp only at h
    subst h
    exact data_unwrap_panics menu gltf r w surf e inp
  · intro h
    cases hd : dataOpt with
    | none => rw [hd] at h; simp at h
    | some d =>
      subst hd
      cases e with
      | redrawRequested =>
        cases surf with
        | none => rw [redraw_no_surface]; simp
        | some s => rw [redraw_ok]; simp
      | mainEventsCleared => rw [main_events_cleared_ok]; simp
      | windowEvent we =>
        cases we with
        | resized wd ht => rw [resized_ok]; simp
        | closeRequested => rw [close_requested_ok]; simp
        | other => rw [other_window_ok]; simp
      | other => rw [other_event_ok]; simp
  · intro h
    cases hd : dataOpt with
    | none =>
      subst hd
      rw [data_unwrap_panics] at h
      simp at h
    | some d =>
      subst hd
      cases e with
      | redrawRequested =>
        cases surf with
        | none => rw [redraw_no_surface] at h; simp at h
        | some s =>
          rw [redraw_ok] at h
          injection h with h
          subst h
          rfl
      | mainEventsCleared =>
        rw [main_events_cleared_ok] at h
        injection h with h
        subst h
        rfl
      | windowEvent we =>
        cases we with
        | resized wd ht =>
          rw [resized_ok] at h
          injection h with h
          subst h
          rfl
        | closeRequested =>
          rw [close_requested_ok] at h
          injection h with h
          subst h
          rfl
        | other =>
          rw [other_window_ok] at h
          injection h with h
          subst h
          rfl
      | other =>
        rw [other_event_ok] at h
        injection h with h
        subst h
        rfl

/-- Claim C9 witness: a pre-setup event panics at the data unwrap; a
post-setup event does not, `setup` populates the session, and a successful
call leaves it populated. -/
theorem C9_witness :
    handle_event Rendering.mkDefault Renderer.empty theWindow none .other
      idleInput = .error .dataUnwrap
    ∧ handle_event stW rW theWindow none .other idleInput ≠ .error .dataUnwrap
    ∧ (setup Rendering.mkDefault Renderer.empty theWindow).1.data.isSome = true
    ∧ (getOk (handle_event stW rW theWindow none .other
        idleInput)).state.data.isSome = true :=
  ⟨(C9_session_unwrap_safety Rendering.mkDefault Renderer.empty theWindow none
      .other idleInput ⟨Rendering.mkDefault, Renderer.empty, [], none⟩
      Rendering.mkDefault Renderer.empty theWindow).1 rfl,
   (C9_session_unwrap_safety stW rW theWindow none .other idleInput
      (getOk (handle_event stW rW theWindow none .other idleInput))
      Rendering.mkDefault Renderer.empty theWindow).2.1 rfl,
   (C9_session_unwrap_safety stW rW theWindow none .other idleInput
      (getOk (handle_event stW rW theWindow none .other idleInput))
      Rendering.mkDefault Renderer.empty theWindow).2.2.1,
   (C9_session_unwrap_safety stW rW theWindow none .other idleInput
      (getOk (handle_event stW rW theWindow none .other idleInput))
      Rendering.mkDefault Renderer.empty theWindow).2.2.2 rfl⟩

/-- Claim C10: on a populated session, a `RedrawRequested` delivered with no
surface hits the `surface.unwrap()` failure branch, and with a surface
supplied the call returns normally — that branch is unreachable. -/
theorem C10_redraw_needs_surface (st : Rendering) (d : RenderingData)
    (r : Renderer) (w : Window) (s : Nat) (inp : FrameInput)
    (hd : st.data = some d) :
    handle_event st r w none .redrawRequested inp = .error .surfaceUnwrap
    ∧ isOk (handle_event st r w (some s) .redrawRequested inp) = true := by
  obtain ⟨dataOpt, menu, gltf⟩ := st
  dsimp only at hd
  subst hd
  exact ⟨redraw_no_surface d menu gltf r w inp, by rw [redraw_ok]; rfl⟩

/-- Claim C10 witness: on the setup state, a surfaceless redraw panics at the
surface unwrap and a surfaced redraw returns normally. -/
theorem C10_witness :
    handle_event stW rW theWindow none .redrawRequested idleInput =
      .error .surfaceUnwrap
    ∧ isOk (handle_event stW rW theWindow (some 0) .redrawRequested
        idleInput) = true :=
  C10_redraw_needs_surface stW dW rW theWindow 0 idleInput rfl

/-- Claim C3 counterexample: on a concrete idle frame, it is false that every
routine-lock release precedes the `graph.execute` call — the two lock guards
drop only at the end of the match arm, after execution. -/
theorem C3_counterexample :
    locksReleasedBeforeExecute ((getOk (handle_event stW rW theWindow (some 0)
      .redrawRequested idleInput)).trace) = false := by decide

/-- Claim C3 amended: within one `RedrawRequested` frame the lock/execute
actions are exactly: acquire pbr, acquire tonemapping, execute the graph,
release tonemapping, release pbr — the locks are acquired before graph
construction and released only after `graph.execute` returns, but still
within the same frame's event processing; and no other event's trace
contains any lock activity, so a lock is never held across frames. -/
theorem C3_lock_scope (st : Rendering) (d : RenderingData) (r : Renderer)
    (w : Window) (s : Nat) (inp : FrameInput) (e : Event) (surf2 : Option Nat)
    (inp2 : FrameInput) (res res2 : StepResult) (hd : st.data = some d)
    (he : e ≠ .redrawRequested)
    (hres : handle_event st r w (some s) .redrawRequested inp = .ok res)
    (hres2 : handle_event st r w surf2 e inp2 = .ok res2) :
    res.trace.filter Action.isLockOrExecute =
      [.lockAcquire .pbr, .lockAcquire .tonemapping,
       .graphExecute
         [.pbrForward none, .tonemap,
          .egui (tessellateTree (build_taskbar st.menu_toggle
            st.gltf_cube_toggle d.color d.material_handle inp).tree)]
         (.surface s),
       .lockRelease .tonemapping, .lockRelease .pbr]
    ∧ res2.trace.filter Action.isLock = [] := by
  obtain ⟨dataOpt, menu, gltf⟩ := st
  dsimp only at hd ⊢
  subst hd
  rw [redraw_ok] at hres
  injection hres with h
  subst h
  refine ⟨redrawTrace_filter_lockExec _ s, ?_⟩
  cases e with
  | redrawRequested => exact absurd rfl he
  | mainEventsCleared =>
    rw [main_events_cleared_ok] at hres2
    injection hres2 with h2
    subst h2
    rfl
  | windowEvent we =>
    cases we with
    | resized wd ht =>
      rw [resized_ok] at hres2
      injection hres2 with h2
      subst h2
      rfl
    | closeRequested =>
      rw [close_requested_ok] at hres2
      injection hres2 with h2
      subst h2
      rfl
    | other =>
      rw [other_window_ok] at hres2
      injection hres2 with h2
      subst h2
      rfl
  | other =>
    rw [other_event_ok] at hres2
    injection hres2 with h2
    subst h2
    rfl

/-- Claim C3 witness: concrete lock/execute ordering of an idle frame, and
absence of lock activity in a non-redraw event's trace. -/
theorem C3_witness :
    (getOk (handle_event stW rW theWindow (some 0) .redrawRequested
      idleInput)).trace.filter Action.isLockOrExecute =
      [.lockAcquire .pbr, .lockAcquire .tonemapping,
       .graphExecute
         [.pbrForward none, .tonemap,
          .egui (tessellateTree (build_taskbar stW.menu_toggle
            stW.gltf_cube_toggle dW.color dW.material_handle idleInput).tree)]
         (.surface 0),
       .lockRelease .tonemapping, .lockRelease .pbr]
    ∧ (getOk (handle_event stW rW theWindow none .other
        idleInput)).trace.filter Action.isLock = [] :=
  C3_lock_scope stW dW rW theWindow 0 idleInput .other none idleInput
    (getOk (handle_event stW rW theWindow (some 0) .redrawRequested idleInput))
    (getOk (handle_event stW rW theWindow none .other idleInput))
    rfl (by decide) rfl rfl

/-- Claim C5: on a running loop over a populated session, processing
`CloseRequested` transitions the loop to the terminal `Terminated` state; a
second `CloseRequested` changes nothing; and a later injected
`RedrawRequested` is not processed — it changes nothing and produces no
actions (no frame build, no graph execution). -/
theorem C5_close_terminates (a : App) (s1 s2 s3 : Option Nat)
    (i1 i2 i3 : FrameInput) (hrun : a.loop = .running)
    (hd : a.rendering.data.isSome = true) :
    (stepLoop a s1 (.windowEvent .closeRequested) i1).1.loop = .terminated
    ∧ stepLoop (stepLoop a s1 (.windowEvent .closeRequested) i1).1 s2
        (.windowEvent .closeRequested) i2 =
        ((stepLoop a s1 (.windowEvent .closeRequested) i1).1, [])
    ∧ stepLoop (stepLoop a s1 (.windowEvent .closeRequested) i1).1 s3
        .redrawRequested i3 =
        ((stepLoop a s1 (.windowEvent .closeRequested) i1).1, []) := by
  obtain ⟨⟨dataOpt, menu, gltf⟩, r, loop⟩ := a
  dsimp only at hrun hd
  subst hrun
  cases dataOpt with
  | none => simp at hd
  | some d => exact ⟨rfl, rfl, rfl⟩

/-- Claim C5 witness: closing the freshly set-up application terminates the
loop, and further close/redraw events are no-ops. -/
theorem C5_witness :
    (stepLoop initialApp none (.windowEvent .closeRequested) idleInput).1.loop =
      .terminated
    ∧ stepLoop (stepLoop initialApp none (.windowEvent .closeRequested)
        idleInput).1 none (.windowEvent .closeRequested) idleInput =
        ((stepLoop initialApp none (.windowEvent .closeRequested) idleInput).1, [])
    ∧ stepLoop (stepLoop initialApp none (.windowEvent .closeRequested)
        idleInput).1 (some 0) .redrawRequested idleInput =
        ((stepLoop initialApp none (.windowEvent .closeRequested) idleInput).1, []) :=
  C5_close_terminates initialApp none none (some 0) idleInput idleInput
    idleInput rfl rfl

/-! Noninterference of the gltf/cube toggle: nothing in a frame's observable
behaviour depends on it. -/

/-- The egui build is insensitive to the gltf toggle's current value in every
component except the toggle itself. -/
theorem build_taskbar_gltf_invisible (menu g1 g2 : Bool) (c : Rgba) (mh : Nat)
    (inp : FrameInput) :
    (build_taskbar menu g1 c mh inp).menu_toggle =
      (build_taskbar menu g2 c mh inp).menu_toggle
    ∧ (build_taskbar menu g1 c mh inp).color =
        (build_taskbar menu g2 c mh inp).color
    ∧ (build_taskbar menu g1 c mh inp).updates =
        (build_taskbar menu g2 c mh inp).updates
    ∧ (build_taskbar menu g1 c mh inp).tree =
        (build_taskbar menu g2 c mh inp).tree := by
  by_cases h : menuAfterClick menu inp <;> cases hc : inp.colorEdit <;>
    simp [build_taskbar, h, hc]

/-- A redraw frame is insensitive to the gltf toggle in its trace, renderer
effects, control-flow request, and all state components except the toggle. -/
theorem redrawResult_gltf_invisible (d : RenderingData) (menu g1 g2 : Bool)
    (r : Renderer) (s : Nat) (inp : FrameInput) :
    (redrawResult d menu g1 r s inp).trace = (redrawResult d menu g2 r s inp).trace
    ∧ (redrawResult d menu g1 r s inp).renderer =
        (redrawResult d menu g2 r s inp).renderer
    ∧ (redrawResult d menu g1 r s inp).state.data =
        (redrawResult d menu g2 r s inp).state.data
    ∧ (redrawResult d menu g1 r s inp).state.menu_toggle =
        (redrawResult d menu g2 r s inp).state.menu_toggle
    ∧ (redrawResult d menu g1 r s inp).cf = (redrawResult d menu g2 r s inp).cf := by
  obtain ⟨h1, h2, h3, h4⟩ := build_taskbar_gltf_invisible menu g1 g2 d.color
    d.material_handle inp
  refine ⟨?_, ?_, ?_, ?_, rfl⟩ <;>
    simp [redrawResult, redrawTrace, h1, h2, h3, h4]

/-- One loop step is insensitive to the gltf toggle: equal traces, and equal
successor states in every component except the toggle. -/
theorem stepLoop_gltf_invisible (a1 a2 : App) (surf : Option Nat) (e : Event)
    (inp : FrameInput)
    (hrd : a1.rendering.data = a2.rendering.data)
    (hrm : a1.rendering.menu_toggle = a2.rendering.menu_toggle)
    (hrr : a1.renderer = a2.renderer) (hl : a1.loop = a2.loop) :
    (stepLoop a1 surf e inp).2 = (stepLoop a2 surf e inp).2
    ∧ (stepLoop a1 surf e inp).1.rendering.data =
        (stepLoop a2 surf e inp).1.rendering.data
    ∧ (stepLoop a1 surf e inp).1.rendering.menu_toggle =
        (stepLoop a2 surf e inp).1.rendering.menu_toggle
    ∧ (stepLoop a1 surf e inp).1.renderer = (stepLoop a2 surf e inp).1.renderer
    ∧ (stepLoop a1 surf e inp).1.loop = (stepLoop a2 surf e inp).1.loop := by
  obtain ⟨⟨dOpt1, m1, g1⟩, r1, l1⟩ := a1
  obtain ⟨⟨dOpt2, m2, g2⟩, r2, l2⟩ := a2
  dsimp only at hrd hrm hrr hl
  subst hrd
  subst hrm
  subst hrr
  subst hl
  cases l1 with
  | terminated => exact ⟨rfl, rfl, rfl, rfl, rfl⟩
  | running =>
    cases dOpt1 with
    | none => exact ⟨rfl, rfl, rfl, rfl, rfl⟩
    | some d =>
      cases e with
      | redrawRequested =>
        cases surf with
        | none => exact ⟨rfl, rfl, rfl, rfl, rfl⟩
        | some s =>
          obtain ⟨h1, h2, h3, h4, h5⟩ := redrawResult_gltf_invisible d m1 g1 g2
            r1 s inp
          simp only [stepLoop, redraw_ok]
          exact ⟨h1, h3, h4, h2, by rw [h5]⟩
      | mainEventsCleared => exact ⟨rfl, rfl, rfl, rfl, rfl⟩
      | windowEvent we =>
        cases we with
        | resized wd ht => exact ⟨rfl, rfl, rfl, rfl, rfl⟩
        | closeRequested => exact ⟨rfl, rfl, rfl, rfl, rfl⟩
        | other => exact ⟨rfl, rfl, rfl, rfl, rfl⟩
      | other => exact ⟨rfl, rfl, rfl, rfl, rfl⟩

/-- Unfolding of one `runLoop` iteration. -/
theorem runLoop_cons (a : App) (s : Option Nat) (e : Event) (i : FrameInput)
    (rest : List (Option Nat × Event × FrameInput)) :
    runLoop a ((s, e, i) :: rest) =
      ((runLoop (stepLoop a s e i).1 rest).1,
       (stepLoop a s e i).2 ++ (runLoop (stepLoop a s e i).1 rest).2) := rfl

/-- A whole run is insensitive to the gltf toggle: identical observable
traces and final states equal in every component except the toggle. -/
theorem runLoop_gltf_invisible (evs : List (Option Nat × Event × FrameInput))
    (a1 a2 : App)
    (hrd : a1.rendering.data = a2.rendering.data)
    (hrm : a1.rendering.menu_toggle = a2.rendering.menu_toggle)
    (hrr : a1.renderer = a2.renderer) (hl : a1.loop = a2.loop) :
    (runLoop a1 evs).2 = (runLoop a2 evs).2
    ∧ (runLoop a1 evs).1.rendering.data = (runLoop a2 evs).1.rendering.data
    ∧ (runLoop a1 evs).1.rendering.menu_toggle =
        (runLoop a2 evs).1.rendering.menu_toggle
    ∧ (runLoop a1 evs).1.renderer = (runLoop a2 evs).1.renderer
    ∧ (runLoop a1 evs).1.loop = (runLoop a2 evs).1.loop := by
  induction evs generalizing a1 a2 with
  | nil => exact ⟨rfl, hrd, hrm, hrr, hl⟩
  | cons ev rest ih =>
    obtain ⟨s, e, i⟩ := ev
    obtain ⟨ht, h1, h2, h3, h4⟩ := stepLoop_gltf_invisible a1 a2 s e i hrd hrm
      hrr hl
    obtain ⟨ht', h1', h2', h3', h4'⟩ := ih (stepLoop a1 s e i).1
      (stepLoop a2 s e i).1 h1 h2 h3 h4
    rw [runLoop_cons, runLoop_cons]
    exact ⟨by rw [ht, ht'], h1', h2', h3', h4'⟩

/-- Claim C8: clicking the "GLTF/Cube" toggle during a panel-open frame
inverts the flag, and a second such frame restores it to its prior value;
moreover the flag's value is invisible: two applications whose states differ
only in the gltf toggle produce, for every event sequence, identical action
traces (hence identical scene state, material updates and render graphs) and
final states equal in every component except the toggle itself. -/
theorem C8_gltf_toggle_no_effect (st : Rendering) (d : RenderingData)
    (r : Renderer) (w : Window) (s : Nat) (res1 res2 : StepResult)
    (a1 a2 : App) (evs : List (Option Nat × Event × FrameInput))
    (hd : st.data = some d) (hm : st.menu_toggle = true)
    (hres1 : handle_event st r w (some s) .redrawRequested gltfClickInput =
      .ok res1)
    (hres2 : handle_event res1.state res1.renderer w (some s) .redrawRequested
      gltfClickInput = .ok res2)
    (hrd : a1.rendering.data = a2.rendering.data)
    (hrm : a1.rendering.menu_toggle = a2.rendering.menu_toggle)
    (hrr : a1.renderer = a2.renderer) (hl : a1.loop = a2.loop) :
    res1.state.gltf_cube_toggle = !st.gltf_cube_toggle
    ∧ res2.state.gltf_cube_toggle = st.gltf_cube_toggle
    ∧ (runLoop a1 evs).2 = (runLoop a2 evs).2
    ∧ (runLoop a1 evs).1.rendering.data = (runLoop a2 evs).1.rendering.data
    ∧ (runLoop a1 evs).1.rendering.menu_toggle =
        (runLoop a2 evs).1.rendering.menu_toggle
    ∧ (runLoop a1 evs).1.renderer = (runLoop a2 evs).1.renderer := by
  obtain ⟨hrt, hr1, hr2, hr3, _⟩ := runLoop_gltf_invisible evs a1 a2 hrd hrm
    hrr hl
  obtain ⟨dataOpt, menu, gltf⟩ := st
  dsimp only at hd hm ⊢
  subst hd
  subst hm
  rw [redraw_ok] at hres1
  injection hres1 with h1
  subst h1
  simp only [redrawResult] at hres2
  rw [redraw_ok] at hres2
  injection hres2 with h2
  subst h2
  refine ⟨?_, ?_, hrt, hr1, hr2, hr3⟩ <;>
    simp [redrawResult, build_taskbar_menu, build_taskbar_gltf, menuAfterClick,
      gltfAfterClick, gltfClickInput]

/-- Claim C8 witness: from a panel-open session, two gltf-click frames
restore the toggle; and two states differing only in the toggle yield the
same trace and matching final components over a one-redraw run. -/
theorem C8_witness :
    (getOk (handle_event (getOk (handle_event ⟨some dW, true, false⟩ rW
        theWindow (some 0) .redrawRequested gltfClickInput)).state
      (getOk (handle_event ⟨some dW, true, false⟩ rW theWindow (some 0)
        .redrawRequested gltfClickInput)).renderer
      theWindow (some 0) .redrawRequested
      gltfClickInput)).state.gltf_cube_toggle = false
    ∧ (runLoop ⟨⟨some dW, false, true⟩, rW, .running⟩
        [(some 0, .redrawRequested, idleInput)]).2 =
      (runLoop ⟨⟨some dW, false, false⟩, rW, .running⟩
        [(some 0, .redrawRequested, idleInput)]).2 :=
  ⟨((C8_gltf_toggle_no_effect ⟨some dW, true, false⟩ dW rW theWindow 0
      (getOk (handle_event ⟨some dW, true, false⟩ rW theWindow (some 0)
        .redrawRequested gltfClickInput))
      (getOk (handle_event (getOk (handle_event ⟨some dW, true, false⟩ rW
          theWindow (some 0) .redrawRequested gltfClickInput)).state
        (getOk (handle_event ⟨some dW, true, false⟩ rW theWindow (some 0)
          .redrawRequested gltfClickInput)).renderer
        theWindow (some 0) .redrawRequested gltfClickInput))
      ⟨⟨some dW, false, true⟩, rW, .running⟩
      ⟨⟨some dW, false, false⟩, rW, .running⟩
      [(some 0, .redrawRequested, idleInput)]
      rfl rfl rfl rfl rfl rfl rfl rfl).2.1),
   ((C8_gltf_toggle_no_effect ⟨some dW, true, false⟩ dW rW theWindow 0
      (getOk (handle_event ⟨some dW, true, false⟩ rW theWindow (some 0)
        .redrawRequested gltfClickInput))
      (getOk (handle_event (getOk (handle_event ⟨some dW, true, false⟩ rW
          theWindow (some 0) .redrawRequested gltfClickInput)).state
        (getOk (handle_event ⟨some dW, true, false⟩ rW theWindow (some 0)
          .redrawRequested gltfClickInput)).renderer
        theWindow (some 0) .redrawRequested gltfClickInput))
      ⟨⟨some dW, false, true⟩, rW, .running⟩
      ⟨⟨some dW, false, false⟩, rW, .running⟩
      [(some 0, .redrawRequested, idleInput)]
      rfl rfl rfl rfl rfl rfl rfl rfl).2.2.1)⟩

/-! Material-update bookkeeping: `update_material` rewrites in place under an
existing handle and touches nothing else. -/

/-- Updating an association list in place: the looked-up entry under the
updated key becomes the new value, provided the key was present. -/
theorem find?_map_update_self (l : List (Nat × PbrMaterial)) (h : Nat)
    (m : PbrMaterial) (hmem : (l.find? (fun p => p.1 == h)).isSome = true) :
    (l.map (fun p => if p.1 = h then (h, m) else p)).find? (fun p => p.1 == h) =
      some (h, m) := by
  induction l with
  | nil => simp [List.find?] at hmem
  | cons a t ih =>
    by_cases hah : a.1 = h
    · simp [List.find?, hah]
    · rw [List.find?_cons_of_neg _ (by simp [hah])] at hmem
      rw [List.map_cons, if_neg hah, List.find?_cons_of_neg _ (by simp [hah])]
      exact ih hmem

/-- Updating an association list in place leaves lookups of every other key
unchanged. -/
theorem find?_map_update_other (l : List (Nat × PbrMaterial)) (h h' : Nat)
    (m : PbrMaterial) (hne : h' ≠ h) :
    (l.map (fun p => if p.1 = h then (h, m) else p)).find? (fun p => p.1 == h') =
      l.find? (fun p => p.1 == h') := by
  induction l with
  | nil => rfl
  | cons a t ih =>
    by_cases hah : a.1 = h
    · rw [List.map_cons, if_pos hah,
        List.find?_cons_of_neg _ (by simp [Ne.symm hne]),
        List.find?_cons_of_neg _ (by simp [hah ▸ Ne.symm hne])]
      exact ih
    · by_cases hah' : a.1 = h'
      · rw [List.map_cons, if_neg hah, List.find?_cons_of_pos _ (by simp [hah']),
          List.find?_cons_of_pos _ (by simp [hah'])]
      · rw [List.map_cons, if_neg hah,
          List.find?_cons_of_neg _ (by simp [hah']),
          List.find?_cons_of_neg _ (by simp [hah'])]
        exact ih

/-- The session material invariant: the material stored under handle 1 (the
handle `setup` allocated for the one material) is always an
albedo-value-only PBR material, the session data still records handle 1, and
the renderer's objects (hence the object's mesh/material bindings) are those
created by `setup`. -/
def SessionMaterialInv (a : App) : Prop :=
  (∃ cc, a.renderer.material 1 = some (pbrWithAlbedo cc))
  ∧ (∀ d, a.rendering.data = some d → d.material_handle = 1)
  ∧ a.renderer.objects = rW.objects

/-- `setup` establishes the session material invariant. -/
theorem sessionMaterialInv_init : SessionMaterialInv initialApp := by
  refine ⟨⟨⟨0, 1/2, 1/2, 1⟩, rfl⟩, ?_, rfl⟩
  intro d hd
  have h2 : some dW = some d := hd
  injection h2 with h2
  rw [← h2]
  rfl

/-- One loop step preserves the session material invariant. -/
theorem sessionMaterialInv_step (a : App) (surf : Option Nat) (e : Event)
    (inp : FrameInput) (hinv : SessionMaterialInv a) :
    SessionMaterialInv (stepLoop a surf e inp).1 := by
  obtain ⟨⟨hc0, hmat⟩, hdm, hobj⟩ := hinv
  obtain ⟨⟨dOpt, menu, gltf⟩, r, l⟩ := a
  dsimp only at hmat hdm hobj ⊢
  cases l with
  | terminated => exact ⟨⟨hc0, hmat⟩, hdm, hobj⟩
  | running =>
    cases dOpt with
    | none => exact ⟨⟨hc0, hmat⟩, hdm, hobj⟩
    | some d =>
      have hd1 : d.material_handle = 1 := hdm d rfl
      cases e with
      | redrawRequested =>
        cases surf with
        | none => exact ⟨⟨hc0, hmat⟩, hdm, hobj⟩
        | some s =>
          have hfind : (r.materials.find? (fun p => p.1 == 1)).isSome = true := by
            have hm2 : (r.materials.find? (fun p => p.1 == 1)).map Prod.snd =
              some (pbrWithAlbedo hc0) := hmat
            cases hf : r.materials.find? (fun p => p.1 == 1) with
            | none => rw [hf] at hm2; simp at hm2
            | some q => rfl
          simp only [stepLoop, redraw_ok]
          refine ⟨?_, ?_, ?_⟩
          · dsimp only [redrawResult]
            rw [build_taskbar_updates, hd1]
            by_cases hmenu : menuAfterClick menu inp
            · rw [if_pos hmenu]
              cases hce : inp.colorEdit with
              | none => exact ⟨hc0, hmat⟩
              | some c0 =>
                refine ⟨c0, ?_⟩
                show ((r.update_material 1 (pbrWithAlbedo c0)).materials.find?
                  (fun p => p.1 == 1)).map Prod.snd = some (pbrWithAlbedo c0)
                rw [show (r.update_material 1 (pbrWithAlbedo c0)).materials =
                  r.materials.map (fun p => if p.1 = 1 then (1, pbrWithAlbedo c0)
                    else p) from rfl]
                rw [find?_map_update_self _ _ _ hfind]
                rfl
            · rw [if_neg hmenu]
              exact ⟨hc0, hmat⟩
          · intro d' hd'
            dsimp only [redrawResult] at hd'
            injection hd' with hd'
            rw [← hd']
            exact hd1
          · dsimp only [redrawResult]
            rw [build_taskbar_updates, hd1]
            by_cases hmenu : menuAfterClick menu inp
            · rw [if_pos hmenu]
              cases hce : inp.colorEdit with
              | none => exact hobj
              | some c0 => exact hobj
            · rw [if_neg hmenu]
              exact hobj
      | mainEventsCleared => exact ⟨⟨hc0, hmat⟩, hdm, hobj⟩
      | windowEvent we =>
        cases we with
        | resized wd ht =>
          refine ⟨⟨hc0, hmat⟩, ?_, hobj⟩
          intro d' hd'
          injection hd' with hd'
          rw [← hd']
          exact hd1
        | closeRequested => exact ⟨⟨hc0, hmat⟩, hdm, hobj⟩
        | other => exact ⟨⟨hc0, hmat⟩, hdm, hobj⟩
      | other => exact ⟨⟨hc0, hmat⟩, hdm, hobj⟩

/-- Whole runs from the freshly set-up application keep the session material
invariant. -/
theorem sessionMaterialInv_run (evs : List (Option Nat × Event × FrameInput))
    (a : App) (hinv : SessionMaterialInv a) :
    SessionMaterialInv (runLoop a evs).1 := by
  induction evs generalizing a with
  | nil => exact hinv
  | cons ev rest ih =>
    obtain ⟨s, e, i⟩ := ev
    rw [runLoop_cons]
    exact ih _ (sessionMaterialInv_step a s e i hinv)

/-- Claim C6: for every color c, the material update re-submits the
definition under the same handle — the handle still resolves, no handle is
allocated or freed, other handles and the objects (hence existing object
bindings) are untouched, and every non-albedo parameter is the same after
the update as before it; moreover in every state reachable from setup the
session's material (under its recorded handle 1) is an albedo-value-only
PBR material, so the shape hypothesis holds throughout the session. -/
theorem C6_update_material_same_handle (r : Renderer) (h h' : Nat)
    (c c' : Rgba) (evs : List (Option Nat × Event × FrameInput))
    (hm : r.material h = some (pbrWithAlbedo c')) (hne : h' ≠ h) :
    (r.update_material h (pbrWithAlbedo c)).material h =
      some (pbrWithAlbedo c)
    ∧ (r.update_material h (pbrWithAlbedo c)).material h' = r.material h'
    ∧ (r.update_material h (pbrWithAlbedo c)).objects = r.objects
    ∧ (r.update_material h (pbrWithAlbedo c)).nextHandle = r.nextHandle
    ∧ ((r.update_material h (pbrWithAlbedo c)).material h).map
        PbrMaterial.nonAlbedo = (r.material h).map PbrMaterial.nonAlbedo
    ∧ SessionMaterialInv (runLoop initialApp evs).1 := by
  have hfind : (r.materials.find? (fun p => p.1 == h)).isSome = true := by
    have hm2 : (r.materials.find? (fun p => p.1 == h)).map Prod.snd =
      some (pbrWithAlbedo c') := hm
    cases hf : r.materials.find? (fun p => p.1 == h) with
    | none => rw [hf] at hm2; simp at hm2
    | some q => rfl
  have h1 : (r.update_material h (pbrWithAlbedo c)).material h =
      some (pbrWithAlbedo c) := by
    show ((r.materials.map (fun p => if p.1 = h then (h, pbrWithAlbedo c)
      else p)).find? (fun p => p.1 == h)).map Prod.snd = some (pbrWithAlbedo c)
    rw [find?_map_update_self _ _ _ hfind]
    rfl
  refine ⟨h1, ?_, rfl, rfl, ?_,
    sessionMaterialInv_run evs initialApp sessionMaterialInv_init⟩
  · show ((r.materials.map (fun p => if p.1 = h then (h, pbrWithAlbedo c)
      else p)).find? (fun p => p.1 == h')).map Prod.snd = r.material h'
    rw [find?_map_update_other _ _ _ _ hne]
    rfl
  · rw [h1, hm]
    rfl

/-- Claim C6 witness: updating the setup renderer's material (handle 1) to
red keeps the handle resolving, leaves handle 0, the objects and the handle
counter alone, preserves all non-albedo parameters, and the session
invariant holds after a concrete one-frame run. -/
theorem C6_witness :
    (rW.update_material 1 (pbrWithAlbedo ⟨1, 0, 0, 1⟩)).material 1 =
      some (pbrWithAlbedo ⟨1, 0, 0, 1⟩)
    ∧ (rW.update_material 1 (pbrWithAlbedo ⟨1, 0, 0, 1⟩)).material 0 =
        rW.material 0
    ∧ (rW.update_material 1 (pbrWithAlbedo ⟨1, 0, 0, 1⟩)).objects = rW.objects
    ∧ (rW.update_material 1 (pbrWithAlbedo ⟨1, 0, 0, 1⟩)).nextHandle =
        rW.nextHandle
    ∧ ((rW.update_material 1 (pbrWithAlbedo ⟨1, 0, 0, 1⟩)).material 1).map
        PbrMaterial.nonAlbedo = (rW.material 1).map PbrMaterial.nonAlbedo
    ∧ SessionMaterialInv (runLoop initialApp
        [(some 0, .redrawRequested, redInput)]).1 :=
  C6_update_material_same_handle rW 1 0 ⟨1, 0, 0, 1⟩ ⟨0, 1/2, 1/2, 1⟩
    [(some 0, .redrawRequested, redInput)] rfl (by decide)

end Rend3Impl
